import Mathlib

/-
Shallow embedding of the tronbyt-homeassistant integration
(src/custom_components/tronbyt/__init__.py and light.py).

Modelling conventions:
- An HTTP call's outcome is `HttpResult`: either a response carrying a
  status code and a parsed body, or a transport exception carrying its
  message (`str(e)` in the Python source).
- Python exceptions inside a `try` block are modelled with `Except String`;
  the surrounding `except` handler is the `match` that turns an `Except`
  into the handler's return value.
- A JSON object key that may be absent is an `Option` field; `dict.get(k, d)`
  is `Option.getD`, and `dict[k]` on an absent key is `Except.error` (the
  Python `KeyError`).
- `set_device_brightness` takes the server as a function from the PATCH
  payload's brightness to the HTTP outcome, so that which brightness value
  the client dispatches is observable.
-/

namespace Tronbyt

/-- Outcome of one HTTP request: a response with a status code and parsed
body, or a transport exception with its message. -/
inductive HttpResult (β : Type) where
  | response (status : Nat) (body : β)
  | exn (msg : String)

/-- One entry of the vendor's `/v0/devices` JSON list. Every key the source
reads is a field; `none` means the key is absent from the JSON object. -/
structure VendorDevice where
  id : Option String
  displayName : Option String
  brightness : Option Int
  autoDim : Option Bool

/-- The canonical device record built by `TronbytAPI.get_devices`
(__init__.py lines 65-72). -/
structure Device where
  id : String
  name : String
  brightness : Int
  auto_dim : Bool
  model : String
  online : Bool

/-- One entry of the vendor's installations list, as read by
`TronbytAPI._get_current_app`. -/
structure Installation where
  appID : Option String

/-- The snapshot status strings produced by `get_device_status`. -/
inductive DeviceStatus where
  | connected
  | not_found
  | api_error
  | error
deriving DecidableEq

/-- The status dict returned by `TronbytAPI.get_device_status` and stored by
the coordinator. A field is `none` when the corresponding key is absent from
the returned dict. -/
structure Snapshot where
  online : Bool
  status : DeviceStatus
  brightness : Option Int := none
  auto_dim : Option Bool := none
  current_app : Option String := none
  error : Option String := none

/-- The transformation loop of `get_devices` (__init__.py lines 63-72):
`device["id"]` and `device["displayName"]` raise `KeyError` when absent
(modelled as `Except.error`), aborting the whole loop. -/
def transformDevices : List VendorDevice → Except String (List Device)
  | [] => Except.ok []
  | d :: ds =>
    match d.id, d.displayName with
    | some i, some n =>
      match transformDevices ds with
      | Except.ok rest =>
        Except.ok ({ id := i, name := n, brightness := d.brightness.getD 50,
                     auto_dim := d.autoDim.getD false,
                     model := "Tronbyt Display", online := true } :: rest)
      | Except.error e => Except.error e
    | none, _ => Except.error "KeyError: id"
    | some _, none => Except.error "KeyError: displayName"

/-- `TronbytAPI.get_devices` (__init__.py lines 51-79): on HTTP 200,
transform the list; on any other status return `[]`; the blanket `except`
turns any exception (transport or `KeyError`) into `[]`. -/
def get_devices (r : HttpResult (List VendorDevice)) : List Device :=
  match r with
  | HttpResult.response status devices =>
    if status = 200 then
      match transformDevices devices with
      | Except.ok ds => ds
      | Except.error _ => []
    else []
  | HttpResult.exn _ => []

/-- `TronbytAPI._get_current_app` (__init__.py lines 139-156): on HTTP 200
with a non-empty installations list, the first entry's `appID` (defaulting
to "Unknown"); otherwise `None`; its own `except` swallows everything. -/
def get_current_app (r : HttpResult (List Installation)) : Option String :=
  match r with
  | HttpResult.response status installations =>
    if status = 200 then
      match installations with
      | [] => none
      | inst :: _ => some (inst.appID.getD "Unknown")
    else none
  | HttpResult.exn _ => none

/-- The linear scan of `get_device_status` (__init__.py lines 121-129):
`device["id"]` raises `KeyError` on an entry without an `id` key; otherwise
return the first entry whose id equals `device_id`, or `none`. -/
def findDevice (device_id : String) : List VendorDevice → Except String (Option VendorDevice)
  | [] => Except.ok none
  | d :: ds =>
    match d.id with
    | none => Except.error "KeyError: id"
    | some i => if i = device_id then Except.ok (some d) else findDevice device_id ds

/-- The world one `get_device_status` call runs against: the response to its
`/v0/devices` GET and the response to the secondary installations GET. -/
structure StatusWorld where
  listResult : HttpResult (List VendorDevice)
  appResult : HttpResult (List Installation)

/-- The `try` body of `TronbytAPI.get_device_status` (__init__.py lines
109-134), before the `except` handler: may end in an exception
(transport error, or `KeyError` from the scan). -/
def get_device_status_run (device_id : String) (w : StatusWorld) : Except String Snapshot :=
  match w.listResult with
  | HttpResult.exn msg => Except.error msg
  | HttpResult.response status devices =>
    if status = 200 then
      match findDevice device_id devices with
      | Except.error e => Except.error e
      | Except.ok (some d) =>
        Except.ok { online := true, status := DeviceStatus.connected,
                    brightness := some (d.brightness.getD 50),
                    auto_dim := some (d.autoDim.getD false),
                    current_app := get_current_app w.appResult }
      | Except.ok none =>
        Except.ok { online := false, status := DeviceStatus.not_found }
    else Except.ok { online := false, status := DeviceStatus.api_error }

/-- `TronbytAPI.get_device_status` (__init__.py lines 107-137): the `except`
handler converts any exception into the error snapshot carrying `str(e)`.
The function is a pure function of its arguments — there is no state. -/
def get_device_status (device_id : String) (w : StatusWorld) : Snapshot :=
  match get_device_status_run device_id w with
  | Except.ok s => s
  | Except.error msg =>
    { online := false, status := DeviceStatus.error, error := some msg }

/-- `TronbytAPI.set_device_brightness` (__init__.py lines 169-202): PATCH the
brightness, return true exactly on HTTP 200 or 204; any other status or any
exception yields false. `server` maps the dispatched brightness to the HTTP
outcome. -/
def set_device_brightness (server : Int → HttpResult String) (brightness : Int) : Bool :=
  match server brightness with
  | HttpResult.response status _ => status == 200 || status == 204
  | HttpResult.exn _ => false

/-- `TronbytAPI.set_device_power` (__init__.py lines 158-167):
`brightness = 50 if state else 0`, then delegate to brightness. -/
def set_device_power (server : Int → HttpResult String) (state : Bool) : Bool :=
  set_device_brightness server (if state then (50 : Int) else 0)

/-- `TronbytLight.is_on` (light.py lines 72-77):
`self.coordinator.data.get("brightness", 0) > 0`. -/
def is_on (data : Snapshot) : Bool :=
  decide (0 < data.brightness.getD 0)

/-- `TronbytLight.brightness` (light.py lines 79-86): reads the snapshot's
brightness with default 0. (The source's `is None` guard cannot fire: the
`.get` default makes the read value an int on every snapshot the
coordinator stores.) -/
def light_brightness (data : Snapshot) : Option Int :=
  some (data.brightness.getD 0)

/-- `TronbytLight.available` (light.py lines 88-91):
`self.coordinator.data.get("online", False)`; every snapshot the source
builds carries the `online` key. -/
def available (data : Snapshot) : Bool :=
  data.online

/-- The brightness `TronbytLight.async_turn_on` dispatches (light.py lines
115-125): a supplied value is clamped by `max(_, 1)`; with none supplied,
128 when the snapshot brightness reads 0, else that reading. -/
def turn_on_brightness (data : Snapshot) (requested : Option Int) : Int :=
  match requested with
  | some b => max b 1
  | none =>
    let current_brightness := data.brightness.getD 0
    if current_brightness = 0 then 128 else current_brightness

/-- `TronbytLight.async_turn_on` (light.py lines 113-134) as a step on the
coordinator's snapshot: on success the forced refresh replaces the snapshot
(with `refreshed`, the refresh outcome) and the flag records that a refresh
was requested; on failure the snapshot is left untouched and no refresh is
requested. -/
def async_turn_on (server : Int → HttpResult String) (refreshed : Snapshot)
    (data : Snapshot) (requested : Option Int) : Snapshot × Bool :=
  if set_device_brightness server (turn_on_brightness data requested) then
    (refreshed, true)
  else
    (data, false)

/-- `TronbytLight.async_turn_off` (light.py lines 136-145): dispatch
brightness 0; refresh only on success. -/
def async_turn_off (server : Int → HttpResult String) (refreshed : Snapshot)
    (data : Snapshot) : Snapshot × Bool :=
  if set_device_brightness server 0 then (refreshed, true) else (data, false)

/-- Outcome of one coordinator tick: a stored snapshot, or the
`UpdateFailed` signal. -/
inductive UpdateResult where
  | ok (snapshot : Snapshot)
  | updateFailed (msg : String)

/-- `TronbytDataUpdateCoordinator._async_update_data` (__init__.py lines
262-267): awaits `get_device_status` and raises `UpdateFailed` if that call
raises. The awaited call is the total function above, so the value entering
the `match` is always `Except.ok`. -/
def coordinator_update (device_id : String) (w : StatusWorld) : UpdateResult :=
  match (Except.ok (get_device_status device_id w) : Except String Snapshot) with
  | Except.ok s => UpdateResult.ok s
  | Except.error e => UpdateResult.updateFailed ("Error communicating with API: " ++ e)

/-- A server that accepts (HTTP 200) exactly a PATCH of brightness 128 and
rejects (HTTP 400) everything else; distinguishes which brightness the
client dispatched. -/
def only128Server : Int → HttpResult String :=
  fun b => if b = 128 then HttpResult.response 200 "" else HttpResult.response 400 "bad"

/-- A server that fails every request with HTTP 500. -/
def http500Server : Int → HttpResult String :=
  fun _ => HttpResult.response 500 "Internal Server Error"

/-- Helper: the scan returns `none` when every entry carries an id different
from the one sought. -/
theorem findDevice_eq_none (device_id : String) (devices : List VendorDevice)
    (h : ∀ d ∈ devices, d.id.isSome ∧ d.id ≠ some device_id) :
    findDevice device_id devices = Except.ok none := by
  induction devices with
  | nil => rfl
  | cons d ds ih =>
    obtain ⟨hsome, hne⟩ := h d (List.mem_cons_self d ds)
    obtain ⟨i, hi⟩ := Option.isSome_iff_exists.mp hsome
    have hine : i ≠ device_id := by
      intro heq
      exact hne (by rw [hi, heq])
    simp only [findDevice, hi, if_neg hine]
    exact ih fun x hx => h x (List.mem_cons_of_mem d hx)

/-- Helper: on a list whose entries all carry `id` and `displayName`, the
transformation succeeds and relates input to output entrywise. -/
theorem transformDevices_wellFormed (devices : List VendorDevice)
    (h : ∀ d ∈ devices, d.id.isSome ∧ d.displayName.isSome) :
    ∃ rs, transformDevices devices = Except.ok rs ∧
      List.Forall₂ (fun (d : VendorDevice) (r : Device) =>
        d.id = some r.id ∧ d.displayName = some r.name) devices rs := by
  induction devices with
  | nil => exact ⟨[], rfl, List.Forall₂.nil⟩
  | cons d ds ih =>
    obtain ⟨hid, hname⟩ := h d (List.mem_cons_self d ds)
    obtain ⟨i, hi⟩ := Option.isSome_iff_exists.mp hid
    obtain ⟨n, hn⟩ := Option.isSome_iff_exists.mp hname
    obtain ⟨rs, hrs, hall⟩ := ih fun x hx => h x (List.mem_cons_of_mem d hx)
    refine ⟨({ id := i, name := n, brightness := d.brightness.getD 50,
               auto_dim := d.autoDim.getD false, model := "Tronbyt Display",
               online := true } : Device) :: rs, ?_, ?_⟩
    · simp [transformDevices, hi, hn, hrs]
    · exact List.Forall₂.cons ⟨hi, hn⟩ hall

/-- Helper: an entry missing `id` or `displayName` makes the whole
transformation raise. -/
theorem transformDevices_missing_key (devices : List VendorDevice)
    (h : ∃ d ∈ devices, d.id = none ∨ d.displayName = none) :
    ∃ e, transformDevices devices = Except.error e := by
  induction devices with
  | nil => simp at h
  | cons d ds ih =>
    obtain ⟨x, hx, hbad⟩ := h
    rcases List.mem_cons.mp hx with rfl | hmem
    · rcases hbad with hid | hname
      · exact ⟨"KeyError: id", by simp [transformDevices, hid]⟩
      · rcases hi : x.id with _ | i
        · exact ⟨"KeyError: id", by simp [transformDevices, hi]⟩
        · exact ⟨"KeyError: displayName", by simp [transformDevices, hi, hname]⟩
    · rcases hi : d.id with _ | i
      · exact ⟨"KeyError: id", by simp [transformDevices, hi]⟩
      · rcases hn : d.displayName with _ | n
        · exact ⟨"KeyError: displayName", by simp [transformDevices, hi, hn]⟩
        · obtain ⟨e, he⟩ := ih ⟨x, hmem, hbad⟩
          exact ⟨e, by simp [transformDevices, hi, hn, he]⟩

/-- C1: `get_device_status` returns a typed snapshot on every path and never
raises (it is the total catch of `get_device_status_run`, a pure function of
the call's inputs alone — stateless per call). On HTTP 200 with `device_id`
absent from the list it returns the not_found snapshot; on a non-200 status
the api_error snapshot; on a transport exception the error snapshot carrying
the exception's message. -/
theorem get_device_status_branches :
    (∀ (device_id : String) (w : StatusWorld) (devices : List VendorDevice),
      w.listResult = HttpResult.response 200 devices →
      (∀ d ∈ devices, d.id.isSome ∧ d.id ≠ some device_id) →
      get_device_status device_id w =
        { online := false, status := DeviceStatus.not_found }) ∧
    (∀ (device_id : String) (w : StatusWorld) (status : Nat)
      (devices : List VendorDevice),
      w.listResult = HttpResult.response status devices → status ≠ 200 →
      get_device_status device_id w =
        { online := false, status := DeviceStatus.api_error }) ∧
    (∀ (device_id : String) (w : StatusWorld) (msg : String),
      w.listResult = HttpResult.exn msg →
      get_device_status device_id w =
        { online := false, status := DeviceStatus.error, error := some msg }) := by
  refine ⟨?_, ?_, ?_⟩
  · intro device_id w devices hw habs
    simp [get_device_status, get_device_status_run, hw,
      findDevice_eq_none device_id devices habs]
  · intro device_id w status devices hw hne
    simp [get_device_status, get_device_status_run, hw, hne]
  · intro device_id w msg hw
    simp [get_device_status, get_device_status_run, hw]

/-- Witness for C1 at concrete worlds: a 200 list without the sought id, a
500 response, and a transport exception. -/
theorem get_device_status_branches_witness :
    get_device_status "d1"
        { listResult := HttpResult.response 200
            [{ id := some "d2", displayName := some "Lobby",
               brightness := some 128, autoDim := none }],
          appResult := HttpResult.exn "down" } =
      { online := false, status := DeviceStatus.not_found } ∧
    get_device_status "d1"
        { listResult := HttpResult.response 500 [],
          appResult := HttpResult.exn "down" } =
      { online := false, status := DeviceStatus.api_error } ∧
    get_device_status "d1"
        { listResult := HttpResult.exn "Cannot connect to host",
          appResult := HttpResult.exn "down" } =
      { online := false, status := DeviceStatus.error,
        error := some "Cannot connect to host" } := by
  refine ⟨?_, ?_, ?_⟩
  · exact get_device_status_branches.1 "d1" _ _ rfl (by decide)
  · exact get_device_status_branches.2.1 "d1" _ 500 [] rfl (by decide)
  · exact get_device_status_branches.2.2 "d1" _ "Cannot connect to host" rfl

/-- C5: on HTTP 200 over a list of well-formed vendor entries, `get_devices`
returns exactly one canonical record per entry, preserving `id` and mapping
`displayName` to `name` (so the lengths agree); on any non-200 status, and
on any transport exception, it returns the empty list — it never raises. -/
theorem get_devices_maps_list :
    (∀ devices : List VendorDevice,
      (∀ d ∈ devices, d.id.isSome ∧ d.displayName.isSome) →
      List.Forall₂ (fun (d : VendorDevice) (r : Device) =>
          d.id = some r.id ∧ d.displayName = some r.name)
        devices (get_devices (HttpResult.response 200 devices)) ∧
      (get_devices (HttpResult.response 200 devices)).length = devices.length) ∧
    (∀ (status : Nat) (devices : List VendorDevice), status ≠ 200 →
      get_devices (HttpResult.response status devices) = []) ∧
    (∀ msg : String, get_devices (HttpResult.exn msg) = []) := by
  refine ⟨?_, ?_, ?_⟩
  · intro devices h
    obtain ⟨rs, hrs, hall⟩ := transformDevices_wellFormed devices h
    have hres : get_devices (HttpResult.response 200 devices) = rs := by
      simp [get_devices, hrs]
    rw [hres]
    exact ⟨hall, hall.length_eq.symm⟩
  · intro status devices hne
    simp [get_devices, hne]
  · intro msg
    rfl

/-- Witness for C5: a two-entry 200 list maps to two records, and a 404 and
an exception each yield the empty list. -/
theorem get_devices_maps_list_witness :
    (List.Forall₂ (fun (d : VendorDevice) (r : Device) =>
        d.id = some r.id ∧ d.displayName = some r.name)
      [{ id := some "d1", displayName := some "Lobby",
         brightness := some 128, autoDim := some false },
       { id := some "d2", displayName := some "Desk",
         brightness := none, autoDim := none }]
      (get_devices (HttpResult.response 200
        [{ id := some "d1", displayName := some "Lobby",
           brightness := some 128, autoDim := some false },
         { id := some "d2", displayName := some "Desk",
           brightness := none, autoDim := none }])) ∧
     (get_devices (HttpResult.response 200
        [{ id := some "d1", displayName := some "Lobby",
           brightness := some 128, autoDim := some false },
         { id := some "d2", displayName := some "Desk",
           brightness := none, autoDim := none }])).length = 2) ∧
    get_devices (HttpResult.response 404 []) = [] ∧
    get_devices (HttpResult.exn "timeout") = [] := by
  refine ⟨get_devices_maps_list.1 _ (by decide), ?_, ?_⟩
  · exact get_devices_maps_list.2.1 404 [] (by decide)
  · exact get_devices_maps_list.2.2 "timeout"

/-- C10: if any entry of a successfully fetched (HTTP 200) device list lacks
the `id` or the `displayName` key, the `KeyError` aborts the transformation
and the blanket handler makes the whole call return the empty list — never a
partial list of the well-formed entries. -/
theorem get_devices_all_or_nothing (devices : List VendorDevice)
    (h : ∃ d ∈ devices, d.id = none ∨ d.displayName = none) :
    get_devices (HttpResult.response 200 devices) = [] := by
  obtain ⟨e, he⟩ := transformDevices_missing_key devices h
  simp [get_devices, he]

/-- Witness for C10: a list whose first entry is well-formed and whose
second lacks `displayName` yields `[]`, not the one-element partial list. -/
theorem get_devices_all_or_nothing_witness :
    get_devices (HttpResult.response 200
      [{ id := some "d1", displayName := some "Lobby",
         brightness := some 128, autoDim := some false },
       { id := some "d2", displayName := none,
         brightness := some 10, autoDim := none }]) = [] :=
  get_devices_all_or_nothing _ (by decide)

/-- C6: every snapshot `get_device_status` can produce satisfies the
invariant — either its status is `connected`, or its `online` flag is false;
no return path yields `online = true` together with a non-connected status. -/
theorem snapshot_online_invariant (device_id : String) (w : StatusWorld) :
    (get_device_status device_id w).status = DeviceStatus.connected ∨
    (get_device_status device_id w).online = false := by
  rcases w with ⟨lr, ar⟩
  rcases lr with ⟨status, devices⟩ | msg
  · by_cases h200 : status = 200
    · subst h200
      rcases hf : findDevice device_id devices with e | od
      · right
        simp [get_device_status, get_device_status_run, hf]
      · rcases od with _ | d
        · right
          simp [get_device_status, get_device_status_run, hf]
        · left
          simp [get_device_status, get_device_status_run, hf]
    · right
      simp [get_device_status, get_device_status_run, h200]
  · right
    simp [get_device_status, get_device_status_run]

/-- C2 (code bug): `set_device_power` with `state = false` dispatches
brightness 0 as claimed, but with `state = true` it dispatches brightness 50
— not 128, the 50% point of the 0-255 scale its own comment and the
brightness API's documentation prescribe. Against a server accepting only a
brightness-128 PATCH, power-on fails while `set_device_brightness _ 128`
succeeds, so the claimed equivalence is false on the code. -/
theorem set_device_power_dispatch :
    (∀ server : Int → HttpResult String,
      set_device_power server false = set_device_brightness server 0) ∧
    (∀ server : Int → HttpResult String,
      set_device_power server true = set_device_brightness server 50) ∧
    set_device_power only128Server true = false ∧
    set_device_brightness only128Server 128 = true := by
  exact ⟨fun _ => rfl, fun _ => rfl, by decide, by decide⟩

/-- C3: a supplied turn-on brightness is clamped to at least 1; with none
supplied, the dispatched brightness is the snapshot's brightness when that
is non-zero and 128 when it reads 0; hence a no-argument turn-on is
idempotent — once the snapshot reflects the first dispatch, a second
no-argument turn-on dispatches the same value. -/
theorem turn_on_brightness_spec :
    (∀ (data : Snapshot) (b : Int),
      turn_on_brightness data (some b) = max b 1 ∧
      1 ≤ turn_on_brightness data (some b)) ∧
    (∀ data : Snapshot,
      turn_on_brightness data none =
        (if data.brightness.getD 0 = 0 then 128 else data.brightness.getD 0)) ∧
    (∀ data : Snapshot,
      turn_on_brightness
        { data with brightness := some (turn_on_brightness data none) } none =
        turn_on_brightness data none) := by
  refine ⟨fun data b => ⟨rfl, le_max_right b 1⟩, fun data => rfl, fun data => ?_⟩
  by_cases h : data.brightness.getD 0 = 0 <;>
    simp [turn_on_brightness, h]

/-- C4: when the brightness PATCH fails (returns false), `async_turn_on` and
`async_turn_off` request no refresh and leave the snapshot — and therefore
the derived is_on / brightness / available observables — exactly as before
the call; the command is issued once and not retried. -/
theorem command_failure_leaves_state :
    (∀ (server : Int → HttpResult String) (refreshed data : Snapshot)
      (requested : Option Int),
      set_device_brightness server (turn_on_brightness data requested) = false →
      async_turn_on server refreshed data requested = (data, false) ∧
      is_on (async_turn_on server refreshed data requested).1 = is_on data ∧
      light_brightness (async_turn_on server refreshed data requested).1 =
        light_brightness data ∧
      available (async_turn_on server refreshed data requested).1 =
        available data) ∧
    (∀ (server : Int → HttpResult String) (refreshed data : Snapshot),
      set_device_brightness server 0 = false →
      async_turn_off server refreshed data = (data, false)) := by
  constructor
  · intro server refreshed data requested h
    simp [async_turn_on, h]
  · intro server refreshed data h
    simp [async_turn_off, h]

/-- Witness for C4: against an HTTP-500 server, turn-on and turn-off leave a
connected brightness-200 snapshot untouched and request no refresh, even
though a distinct refresh outcome was available. -/
theorem command_failure_leaves_state_witness :
    set_device_brightness http500Server
      (turn_on_brightness
        { online := true, status := DeviceStatus.connected,
          brightness := some 200 } none) = false ∧
    async_turn_on http500Server
        { online := false, status := DeviceStatus.error }
        { online := true, status := DeviceStatus.connected,
          brightness := some 200 } none =
      ({ online := true, status := DeviceStatus.connected,
         brightness := some 200 }, false) ∧
    set_device_brightness http500Server 0 = false ∧
    async_turn_off http500Server
        { online := false, status := DeviceStatus.error }
        { online := true, status := DeviceStatus.connected,
          brightness := some 200 } =
      ({ online := true, status := DeviceStatus.connected,
         brightness := some 200 }, false) := by
  refine ⟨by decide, ?_, by decide, ?_⟩
  · exact (command_failure_leaves_state.1 http500Server _ _ none (by decide)).1
  · exact command_failure_leaves_state.2 http500Server _ _ (by decide)

/-- C7: the light's observables are pure derivations of the current
snapshot: `is_on` holds exactly when the snapshot brightness (read with
default 0) is positive, `available` equals the snapshot's online flag, and
on a connected snapshot of brightness 128 the surface reports on, 128,
available. -/
theorem light_observables :
    (∀ data : Snapshot, (is_on data = true ↔ 0 < data.brightness.getD 0)) ∧
    (∀ data : Snapshot, light_brightness data = some (data.brightness.getD 0)) ∧
    (∀ data : Snapshot, available data = data.online) ∧
    is_on { online := true, status := DeviceStatus.connected,
            brightness := some 128 } = true ∧
    light_brightness { online := true, status := DeviceStatus.connected,
                       brightness := some 128 } = some 128 ∧
    available { online := true, status := DeviceStatus.connected,
                brightness := some 128 } = true := by
  exact ⟨fun data => by simp [is_on], fun data => rfl, fun data => rfl,
    by decide, by decide, by decide⟩

/-- C8: `set_device_brightness` returns true exactly when the PATCH response
carries status 200 or 204; every other status and every transport exception
yields false, and the function is total — it never raises. -/
theorem set_device_brightness_iff (server : Int → HttpResult String)
    (brightness : Int) :
    set_device_brightness server brightness = true ↔
      ∃ body : String,
        server brightness = HttpResult.response 200 body ∨
        server brightness = HttpResult.response 204 body := by
  unfold set_device_brightness
  rcases h : server brightness with ⟨status, body⟩ | msg
  · constructor
    · intro htrue
      rcases Bool.or_eq_true_iff.mp htrue with h200 | h204
      · exact ⟨body, Or.inl (by rw [eq_of_beq h200])⟩
      · exact ⟨body, Or.inr (by rw [eq_of_beq h204])⟩
    · rintro ⟨b, hb | hb⟩ <;> · injection hb with h1 h2; simp [h1]
  · simp

/-- C9: one coordinator tick never signals `UpdateFailed`: the awaited
`get_device_status` is total (every exception is already caught inside it),
so `_async_update_data` always stores the snapshot it returns. -/
theorem coordinator_never_update_failed (device_id : String) (w : StatusWorld) :
    coordinator_update device_id w =
      UpdateResult.ok (get_device_status device_id w) ∧
    ∀ msg : String,
      coordinator_update device_id w ≠ UpdateResult.updateFailed msg := by
  refine ⟨rfl, fun msg h => ?_⟩
  simp [coordinator_update] at h

end Tronbyt
